import Mathlib

/-
Verification of the Evenk concurrency library against its specification.

The definitions below are shallow embeddings of functions from the C++ source:
  - evenk::bounded_queue::is_empty / is_full   (spinlock.h, 2015-2017 revision)
  - evenk::futex_lock::unlock                  (synch.h)
  - evenk::futex_cond_var::wait (owner check)  (synch.h)
  - evenk::thread_pool::work                   (task.h, thread-pool revision)
Machine integers are modelled as Nat with explicit reduction modulo 2^32.
-/

namespace Evenk

/-- Unsigned 32-bit subtraction: `a - b` on `std::uint32_t`, i.e. the
difference modulo 2^32. -/
def sub32 (a b : Nat) : Nat :=
  (a % 2^32 + (2^32 - b % 2^32)) % 2^32

/-- Reinterpretation of a 32-bit unsigned value as a signed `int32_t`
(two's complement). -/
def toInt32 (n : Nat) : Int :=
  if n % 2^32 < 2^31 then (n % 2^32 : Int) else (n % 2^32 : Int) - 2^32

/-- Conversion of an `int32_t` value back to `std::uint32_t`, as performed by
the C++ usual arithmetic conversions when an `int` operand meets an
`unsigned int` operand. -/
def int32_to_u32 (i : Int) : Nat :=
  (i % (2^32 : Int)).toNat

theorem sub32_lt (a b : Nat) : sub32 a b < 2^32 :=
  Nat.mod_lt _ (by norm_num)

theorem int32_roundtrip (n : Nat) : int32_to_u32 (toInt32 n) = n % 2^32 := by
  unfold toInt32 int32_to_u32
  have hp : (2:Nat)^32 = 4294967296 := by norm_num
  have hq : (2:Nat)^31 = 2147483648 := by norm_num
  have hpi : (2:Int)^32 = 4294967296 := by norm_num
  rw [hp, hq, hpi]
  have h := Nat.mod_lt n (show 0 < 4294967296 by norm_num)
  split <;> omega

/-! ### Bounded ring queue state observers

Translated from `evenk::bounded_queue` (spinlock.h file, bounded-queue
revision of 2015-2017).  The queue stores `mask_ = size - 1` where `size`
is a power of two, and two `std::uint32_t` counters `head_` and `tail_`. -/

namespace bounded_queue

/-- Translated from `bounded_queue::is_empty`:
`return int32_t(tail - head) <= 0;` — the literal `0` is an `int`, so this
is a signed 32-bit comparison. -/
def is_empty (head tail : Nat) : Bool :=
  decide (toInt32 (sub32 tail head) ≤ 0)

/-- Translated from `bounded_queue::is_full`:
`return int32_t(tail - head) > mask_;` — `mask_` is `std::uint32_t`, so the
usual arithmetic conversions convert the left `int32_t` operand back to
`unsigned int` and the comparison is unsigned. -/
def is_full (head tail mask : Nat) : Bool :=
  decide (int32_to_u32 (toInt32 (sub32 tail head)) > mask % 2^32)

end bounded_queue

/-- Modelled from the spec words of claim C2 for `is_full`: "tail − head > N
under signed comparison".  To be compared with `bounded_queue.is_full`. -/
def spec_is_full_signed (head tail n : Nat) : Prop :=
  toInt32 (sub32 tail head) > (n : Int)

/-! ### futex_lock::unlock

Translated from `evenk::futex_lock::unlock` (synch.h):
```
if (futex_.fetch_sub(1, std::memory_order_release) != 1) \x7b
        futex_.store(0, std::memory_order_relaxed);
        futex_wake(futex_, 1);
\x7d
```
The model takes the value of the futex word before the call and returns the
final word together with the trace of atomic/kernel events performed. -/

inductive mem_order
  | relaxed
  | acquire
  | release
deriving DecidableEq

inductive futex_event
  | fetch_sub (arg : Nat) (order : mem_order)
  | store (val : Nat) (order : mem_order)
  | wake (count : Nat)
deriving DecidableEq

namespace futex_lock

/-- Translated from `futex_lock::unlock`.  `v` is the futex word before the
call; the result is the final word and the ordered event trace. -/
def unlock (v : Nat) : Nat × List futex_event :=
  if v % 2^32 ≠ 1 then
    (0, [futex_event.fetch_sub 1 mem_order.release,
         futex_event.store 0 mem_order.relaxed,
         futex_event.wake 1])
  else
    (sub32 v 1, [futex_event.fetch_sub 1 mem_order.release])

end futex_lock

/-! ### futex_cond_var::wait owner check

Translated from `evenk::futex_cond_var::wait` (synch.h):
```
futex_lock *owner = guard.get();
if (owner_ != nullptr && owner_ != owner)
        throw std::invalid_argument(
                "different locks used for the same condition variable.");
owner_.store(owner, std::memory_order_relaxed);
```
Locks are identified by a Nat id; `stored` is the current `owner_` field. -/

inductive cv_wait_outcome
  | proceed
  | throw_invalid_argument
  | abort_process
deriving DecidableEq

namespace futex_cond_var

/-- Translated from the entry check of `futex_cond_var::wait`: returns the
outcome of the check and the `owner_` field after it. -/
def wait_owner_check (stored : Option Nat) (guard_lock : Nat) :
    cv_wait_outcome × Option Nat :=
  if stored ≠ none ∧ stored ≠ some guard_lock then
    (cv_wait_outcome.throw_invalid_argument, stored)
  else
    (cv_wait_outcome.proceed, some guard_lock)

end futex_cond_var

/-! ### thread_pool::work

Translated from `evenk::thread_pool::work` (task.h file, thread-pool
revision):
```
while ((flags_.load(std::memory_order_relaxed) & stop_flag) == 0) \x7b
        task_type task;
        auto status = queue_.wait_pop(task);
        if (status != queue_op_status::success) \x7b
                if (status == queue_op_status::closed)
                        break;
                continue;
        \x7d
        task();
\x7d
```
Each loop iteration is driven by what it observes: the stop bit of the
relaxed flags load and the result of `wait_pop` together with the behavior
of the popped task when invoked.  `task()` has no surrounding try/catch, so
a fault raised by the task leaves `work` at once. -/

inductive task_behavior
  | ok
  | fault
deriving DecidableEq

inductive pop_status
  | success (t : task_behavior)
  | closed
  | other
deriving DecidableEq

structure work_iteration where
  stop_bit : Bool
  pop : pop_status
deriving DecidableEq

inductive work_exit
  | stopped
  | closed_exit
  | fault_escape
  | still_running
deriving DecidableEq

namespace thread_pool

/-- Translated from `thread_pool::work`: runs the worker loop over the list
of observed iterations and reports how the loop ends (`still_running` when
the observations run out with the loop still going). -/
def work : List work_iteration → work_exit
  | [] => work_exit.still_running
  | it :: rest =>
    if it.stop_bit then work_exit.stopped
    else
      match it.pop with
      | pop_status.closed => work_exit.closed_exit
      | pop_status.other => work rest
      | pop_status.success task_behavior.ok => work rest
      | pop_status.success task_behavior.fault => work_exit.fault_escape

end thread_pool

/-! ## Theorems -/

/-- Claim C2 (counterexample): with ring size N = 16 (mask 15), head = 0 and
tail = 16, `is_full` returns true, yet the claim's predicate
"tail − head > N under signed comparison" is false (16 > 16 fails), so the
claim as stated does not hold of the code. -/
theorem c2_is_full_counterexample :
    bounded_queue.is_full 0 16 15 = true ∧ ¬ spec_is_full_signed 0 16 16 := by
  refine ⟨by decide, ?_⟩
  show ¬ toInt32 (sub32 16 0) > (16 : Int)
  decide

/-- Claim C2 (amended): for a queue of capacity N (a power-of-two size, mask
N − 1) and any 32-bit head/tail values, `is_empty` returns true iff
tail − head ≤ 0 under signed 32-bit comparison, and `is_full` returns true
iff (tail − head) mod 2^32 ≥ N under unsigned 32-bit comparison — the code
compares the unsigned difference against N − 1, not the signed difference
against N. -/
theorem c2_is_empty_is_full_amended (head tail n : Nat) (h0 : 0 < n)
    (h1 : n ≤ 2^32) :
    (bounded_queue.is_empty head tail = true ↔ toInt32 (sub32 tail head) ≤ 0)
    ∧ (bounded_queue.is_full head tail (n - 1) = true ↔
        n ≤ sub32 tail head) := by
  constructor
  · unfold bounded_queue.is_empty
    exact ⟨of_decide_eq_true, decide_eq_true⟩
  · unfold bounded_queue.is_full
    rw [int32_roundtrip, Nat.mod_eq_of_lt (sub32_lt tail head),
      Nat.mod_eq_of_lt (show n - 1 < 2^32 by omega)]
    constructor
    · intro h
      have := of_decide_eq_true h
      omega
    · intro h
      exact decide_eq_true (by omega)

/-- Witness for the amended claim C2, at N = 16, head = 0, tail = 16. -/
theorem c2_is_empty_is_full_amended_witness :
    (bounded_queue.is_empty 0 16 = true ↔ toInt32 (sub32 16 0) ≤ 0)
    ∧ (bounded_queue.is_full 0 16 15 = true ↔ 16 ≤ sub32 16 0) :=
  c2_is_empty_is_full_amended 0 16 16 (by norm_num) (by norm_num)

/-- Claim C3 (counterexample): a single worker iteration that observes the
stop bit clear and pops a task whose invocation raises a fault ends the
worker loop with the fault escaping `work` — the fault is not caught at the
loop boundary, refuting the claim that a task fault never propagates out of
the worker entry function. -/
theorem c3_work_fault_counterexample :
    thread_pool.work
      [{ stop_bit := false, pop := pop_status.success task_behavior.fault }]
      = work_exit.fault_escape := by
  decide

/-- Claim C3 (amended): whenever a worker iteration observes the stop bit
clear and pops a task whose invocation raises a fault, the fault propagates
out of `work` (there is no handler at the loop boundary) and the worker
processes none of the subsequent iterations. -/
theorem c3_work_fault_amended (rest : List work_iteration) :
    thread_pool.work
      ({ stop_bit := false, pop := pop_status.success task_behavior.fault }
        :: rest)
      = work_exit.fault_escape := by
  rfl

/-- Claim C4: `futex_lock::unlock` always performs `fetch_sub(1)` with
release ordering as its first event; called in the contended state 2 it then
stores 0 (relaxed) and wakes exactly one waiter, leaving the word at 0;
called in the uncontended state 1 it performs no further store and no wake
(no syscall on the uncontended release path), leaving the word at 0. -/
theorem c4_futex_lock_unlock :
    (∀ v : Nat, (futex_lock.unlock v).2.head?
      = some (futex_event.fetch_sub 1 mem_order.release))
    ∧ futex_lock.unlock 2
      = (0, [futex_event.fetch_sub 1 mem_order.release,
             futex_event.store 0 mem_order.relaxed,
             futex_event.wake 1])
    ∧ futex_lock.unlock 1
      = (0, [futex_event.fetch_sub 1 mem_order.release]) := by
  refine ⟨?_, by decide, by decide⟩
  intro v
  unfold futex_lock.unlock
  split <;> rfl

/-- Claim C5 (counterexample): a `futex_cond_var` whose recorded owner is
lock 0 and whose guard holds the different lock 1 signals the misuse by
throwing `std::invalid_argument` — not by aborting the process — refuting
the claim as stated. -/
theorem c5_wait_owner_counterexample :
    (futex_cond_var.wait_owner_check (some 0) 1).1
      = cv_wait_outcome.throw_invalid_argument
    ∧ cv_wait_outcome.throw_invalid_argument ≠ cv_wait_outcome.abort_process
    := by
  decide

/-- Claim C5 (amended): for every futex_cond_var already associated with
some lock, a later wait whose guard holds a different lock is a programming
error signaled by throwing an invalid-argument fault to the caller; the
recorded association is left unchanged (the at-most-one-associated-lock
invariant is preserved) and the operation never proceeds with the second
lock. -/
theorem c5_wait_owner_amended (a b : Nat) (h : a ≠ b) :
    futex_cond_var.wait_owner_check (some a) b
      = (cv_wait_outcome.throw_invalid_argument, some a) := by
  unfold futex_cond_var.wait_owner_check
  rw [if_pos]
  exact ⟨by simp, by simp [h]⟩

/-- Witness for the amended claim C5, with recorded lock 0 and guard lock 1. -/
theorem c5_wait_owner_amended_witness :
    futex_cond_var.wait_owner_check (some 0) 1
      = (cv_wait_outcome.throw_invalid_argument, some 0) :=
  c5_wait_owner_amended 0 1 (by decide)

end Evenk
